import Mathlib

/-!
Shallow embedding of `pubmed.py` (two variants: `src/src/pubmed.py`, suffixed `A`
here, and `src/pubmed.py`, suffixed `B`), a sequential ETL script:
Pager (esearch pages) → Batch Fetcher (efetch + link extraction) → Sink Writer
(DuckDB table + summary query).

The remote HTTP endpoints are modelled as pure functions returning a status code
and an already-parsed XML body; the DuckDB file is modelled as an optional list
of rows.  Python exceptions are modelled with `Except PyErr`; the while-loop of
`get_all_publications` is modelled with explicit fuel (`none` = fuel exhausted).
-/

/-- XML element in the `xml.etree.ElementTree` data model: a tag, the text
appearing between the start tag and the first child (`.text`, `none` when
empty), the child elements, and the text following the end tag inside the
parent (`.tail`). -/
inductive XElem : Type where
  | mk (tag : String) (text : Option String) (children : List XElem) (tail : Option String)

def XElem.tag : XElem → String
  | .mk t _ _ _ => t

def XElem.text : XElem → Option String
  | .mk _ x _ _ => x

def XElem.children : XElem → List XElem
  | .mk _ _ c _ => c

def XElem.tail : XElem → Option String
  | .mk _ _ _ tl => tl

mutual

/-- `element.iter()`: the element itself followed by all descendants in
depth-first (document) order. -/
def XElem.iter : XElem → List XElem
  | .mk t x c tl => .mk t x c tl :: iterList c

def iterList : List XElem → List XElem
  | [] => []
  | e :: es => XElem.iter e ++ iterList es

end

/-- Strict descendants of an element in document order (what `.//tag` paths
range over). -/
def XElem.descendants (e : XElem) : List XElem := iterList e.children

/-- Direct children with a given tag (one step of an ElementPath). -/
def childrenNamed (e : XElem) (t : String) : List XElem :=
  e.children.filter (fun c => c.tag == t)

/-- `root.find(tag)`: first direct child with the tag. -/
def findChild (e : XElem) (t : String) : Option XElem :=
  e.children.find? (fun c => c.tag == t)

/-- `element.find(".//tag")`: first strict descendant with the tag, in
document order. -/
def findDesc (e : XElem) (t : String) : Option XElem :=
  e.descendants.find? (fun c => c.tag == t)

/-- `article.find(".//Abstract/AbstractText")`: the first `AbstractText` child
of an `Abstract` descendant, in document order. -/
def findAbstractTextElem (article : XElem) : Option XElem :=
  (((article.descendants.filter (fun e => e.tag == "Abstract")).map
      (fun a => childrenNamed a "AbstractText")).flatten).head?

mutual

/-- All text segments of an element (its `.text` plus, recursively, the texts
and tails of its descendants) in XML document order: the full textual content
of the sub-document rooted at the element. -/
def docTexts : XElem → List String
  | .mk _ x c _ => x.toList ++ docTextsList c

def docTextsList : List XElem → List String
  | [] => []
  | e :: es => docTexts e ++ e.tail.toList ++ docTextsList es

end

/-! ### The link pattern

`find_github_link` uses `re.search` with the raw pattern
`https?://(?:www\.)?github\.com/[^\s/]+/[^\s/]+` and no flags (in particular
no `re.IGNORECASE`).  The pattern is deterministic enough that greedy matching
needs no backtracking: `s?` is decided by the next literal `:`, `(?:www\.)?`
by the next literal `g`, and each `[^\s/]+` run is maximal and followed by a
character the class excludes. -/

/-- Characters matched by the regex class `\s` (ASCII whitespace; the claims
never involve non-ASCII whitespace). -/
def isSpaceChar (c : Char) : Bool :=
  c == ' ' || c == '\t' || c == '\n' || c == '\r' || c == '\x0b' || c == '\x0c'

/-- Characters matched by the regex class `[^\s/]`. -/
def goodChar (c : Char) : Bool :=
  !(isSpaceChar c) && c != '/'

/-- Match a literal character sequence, returning the remaining input. -/
def lit : List Char → List Char → Option (List Char)
  | [], cs => some cs
  | _ :: _, [] => none
  | p :: ps, c :: cs => if c = p then lit ps cs else none

/-- Maximal run of `[^\s/]` characters and the remaining input. -/
def takeRun : List Char → List Char × List Char
  | [] => ([], [])
  | c :: cs =>
    if goodChar c then
      let r := takeRun cs
      (c :: r.1, r.2)
    else ([], c :: cs)

/-- Attempt to match the GitHub-link regex at the start of the input,
returning the matched characters (`match.group(0)`). -/
def matchAt (cs : List Char) : Option (List Char) :=
  match lit ("http".data) cs with
  | none => none
  | some r0 =>
    let sp : List Char × List Char :=
      match r0 with
      | 's' :: r => (['s'], r)
      | r => ([], r)
    match lit ("://".data) sp.2 with
    | none => none
    | some r2 =>
      let wp : List Char × List Char :=
        match lit ("www.".data) r2 with
        | some r => ("www.".data, r)
        | none => ([], r2)
      match lit ("github.com/".data) wp.2 with
      | none => none
      | some r4 =>
        let ow := takeRun r4
        if ow.1.isEmpty then none
        else
          match ow.2 with
          | '/' :: r6 =>
            let rp := takeRun r6
            if rp.1.isEmpty then none
            else
              some ("http".data ++ sp.1 ++ "://".data ++ wp.1 ++
                    "github.com/".data ++ ow.1 ++ '/' :: rp.1)
          | _ => none

/-- `re.search`: try the pattern at each start position, leftmost match
wins. -/
def searchChars : List Char → Option (List Char)
  | [] => none
  | c :: cs =>
    match matchAt (c :: cs) with
    | some m => some m
    | none => searchChars cs

/-- `re.search(github_regex, s)` returning `match.group(0)`. -/
def searchGithub (s : String) : Option String :=
  (searchChars s.data).map (fun l => String.mk l)

/-- Body of the `for element in article.iter()` loop of `find_github_link`:
`if element.text:` (skips `None` and the empty string) then `re.search`. -/
def scanText (e : XElem) : Option String :=
  match e.text with
  | some t => if t = "" then none else searchGithub t
  | none => none

def findLoop : List XElem → Option String
  | [] => none
  | e :: rest =>
    match scanText e with
    | some m => some m
    | none => findLoop rest

/-- `find_github_link(article)` (identical in both variants, lines 70–77 of
`src/src/pubmed.py` and 64–71 of `src/pubmed.py`). -/
def find_github_link (article : XElem) : Option String :=
  findLoop article.iter

/-! ### Python-level errors and the HTTP environment -/

/-- Exceptions the script can raise: the explicit
`raise Exception(f"... failed with status code ...")` on a non-200 response,
`AttributeError` from `.text` on a `find` that returned `None`,
`TypeError` from `int(None)`, from `','.join` over a `None` entry, or from
`len(...) >= None`, and `ValueError` from `int()` on a non-numeric string. -/
inductive PyErr : Type where
  | httpError (status : Nat)
  | attributeError
  | typeError
  | valueError
deriving DecidableEq

/-- A remote response, with the body already parsed from XML. -/
structure HttpResponse where
  status : Nat
  body : XElem

/-- The two remote endpoints as pure collaborators: `search query retstart
retmax` models the esearch GET, `fetch idString` models the efetch GET with
the comma-joined id list. -/
structure Env where
  search : String → Nat → Nat → HttpResponse
  fetch : String → HttpResponse

/-- Digit-string accumulator for `int()`. -/
def parseNatAux : List Char → Nat → Option Nat
  | [], acc => some acc
  | c :: cs, acc =>
    if c.isDigit then parseNatAux cs (acc * 10 + (c.toNat - '0'.toNat))
    else none

/-- `int(s)` on a string: an optional sign followed by a non-empty digit run
(ValueError otherwise; Python also strips surrounding whitespace, which the
claims never exercise). -/
def parsePyInt (s : String) : Except PyErr Int :=
  match s.data with
  | [] => .error .valueError
  | '-' :: rest =>
    match rest with
    | [] => .error .valueError
    | _ =>
      match parseNatAux rest 0 with
      | some n => .ok (-(n : Int))
      | none => .error .valueError
  | cs =>
    match parseNatAux cs 0 with
    | some n => .ok (n : Int)
    | none => .error .valueError

/-- `search_pubmed` of `src/src/pubmed.py` (lines 19–38): on a 200 response
extract `./IdList/Id` texts and `int(Count.text)` (`None` when no `Count`
child; `int(None)` is a `TypeError`); otherwise raise. -/
def search_pubmedA (env : Env) (query : String) (retstart retmax : Nat) :
    Except PyErr (List (Option String) × Option Int) :=
  let response := env.search query retstart retmax
  if response.status = 200 then
    let root := response.body
    let id_list := (childrenNamed root "IdList").map
      (fun il => (childrenNamed il "Id").map XElem.text) |>.flatten
    match findChild root "Count" with
    | none => .ok (id_list, none)
    | some count =>
      match count.text with
      | none => .error .typeError
      | some s =>
        match parsePyInt s with
        | .error e => .error e
        | .ok n => .ok (id_list, some n)
  else .error (.httpError response.status)

/-- `search_pubmed` of `src/pubmed.py` (lines 18–38): same extraction but the
`Count` field is only logged, never parsed or returned. -/
def search_pubmedB (env : Env) (query : String) (retstart retmax : Nat) :
    Except PyErr (List (Option String)) :=
  let response := env.search query retstart retmax
  if response.status = 200 then
    let root := response.body
    .ok ((childrenNamed root "IdList").map
      (fun il => (childrenNamed il "Id").map XElem.text) |>.flatten)
  else .error (.httpError response.status)

/-- `','.join(pubmed_ids)`: raises `TypeError` when an entry is `None`. -/
def joinIds (ids : List (Option String)) : Except PyErr String :=
  if ids.all (fun i => i.isSome) then
    .ok (String.intercalate "," (ids.filterMap id))
  else .error .typeError

/-- One record dict built by `fetch_pubmed_details` of `src/src/pubmed.py`. -/
structure Article where
  pmid : Option String
  title : Option String
  abstract : Option String
  github_link : Option String
  has_github_link : Bool
deriving DecidableEq

/-- One record dict built by `fetch_pubmed_details` of `src/pubmed.py`
(no `has_github_link` key). -/
structure RowB where
  pmid : Option String
  title : Option String
  abstract : Option String
  github_link : Option String
deriving DecidableEq

/-- Loop body of `fetch_pubmed_details` in `src/src/pubmed.py` (lines 51–63)
for one `PubmedArticle` sub-document: `article.find(".//PMID").text` and
`article.find(".//ArticleTitle").text` raise `AttributeError` when the node is
missing (`None.text`); the abstract is guarded
(`abstract_element.text if abstract_element is not None else None`). -/
def parseArticleA (article : XElem) : Except PyErr Article :=
  match findDesc article "PMID" with
  | none => .error .attributeError
  | some pe =>
    match findDesc article "ArticleTitle" with
    | none => .error .attributeError
    | some te =>
      let abstract := (findAbstractTextElem article).bind XElem.text
      let github_link := find_github_link article
      .ok { pmid := pe.text, title := te.text, abstract := abstract,
            github_link := github_link,
            has_github_link := github_link.isSome }

/-- Loop body of `fetch_pubmed_details` in `src/pubmed.py` (lines 51–57). -/
def parseArticleB (article : XElem) : Except PyErr RowB :=
  match findDesc article "PMID" with
  | none => .error .attributeError
  | some pe =>
    match findDesc article "ArticleTitle" with
    | none => .error .attributeError
    | some te =>
      .ok { pmid := pe.text, title := te.text,
            abstract := (findAbstractTextElem article).bind XElem.text,
            github_link := find_github_link article }

def parseArticlesA : List XElem → Except PyErr (List Article)
  | [] => .ok []
  | a :: rest =>
    match parseArticleA a with
    | .error e => .error e
    | .ok r =>
      match parseArticlesA rest with
      | .error e => .error e
      | .ok rs => .ok (r :: rs)

def parseArticlesB : List XElem → Except PyErr (List RowB)
  | [] => .ok []
  | a :: rest =>
    match parseArticleB a with
    | .error e => .error e
    | .ok r =>
      match parseArticlesB rest with
      | .error e => .error e
      | .ok rs => .ok (r :: rs)

/-- `fetch_pubmed_details` of `src/src/pubmed.py` (lines 40–68).  The second
component records the `id` strings of the HTTP requests actually issued (the
Python issues exactly one `requests.get` per call, after the early return on
an empty id list and after the join). -/
def fetch_pubmed_detailsA (env : Env) (pubmed_ids : List (Option String)) :
    Except PyErr (List Article) × List String :=
  if pubmed_ids.isEmpty then (.ok [], [])
  else
    match joinIds pubmed_ids with
    | .error e => (.error e, [])
    | .ok idStr =>
      let response := env.fetch idStr
      if response.status = 200 then
        (parseArticlesA (childrenNamed response.body "PubmedArticle"), [idStr])
      else (.error (.httpError response.status), [idStr])

/-- `fetch_pubmed_details` of `src/pubmed.py` (lines 40–62). -/
def fetch_pubmed_detailsB (env : Env) (pubmed_ids : List (Option String)) :
    Except PyErr (List RowB) × List String :=
  if pubmed_ids.isEmpty then (.ok [], [])
  else
    match joinIds pubmed_ids with
    | .error e => (.error e, [])
    | .ok idStr =>
      let response := env.fetch idStr
      if response.status = 200 then
        (parseArticlesB (childrenNamed response.body "PubmedArticle"), [idStr])
      else (.error (.httpError response.status), [idStr])

/-! ### The pager loops -/

/-- The `while True` pager loop of `get_all_publications` in
`src/src/pubmed.py` (lines 84–99).  State: accumulated ids, `start_index`,
`total_count` (set from the first page), and a count of search requests issued
so far.  The break test is Python's
`len(all_pubmed_ids) >= total_count or len(pubmed_ids) < batch_size`:
the left disjunct is evaluated first, so when `total_count` is still `None`
the comparison `int >= None` raises `TypeError`.  `fuel` bounds the number of
iterations; `none` means the fuel ran out before the loop broke. -/
def pagerA (env : Env) (query : String) (batch_size : Nat) :
    Nat → List (Option String) → Nat → Option Int → Nat →
    Option (Except PyErr (List (Option String) × Nat))
  | 0, _, _, _, _ => none
  | fuel + 1, all, start, total, reqs =>
    match search_pubmedA env query start batch_size with
    | .error e => some (.error e)
    | .ok (pubmed_ids, batch_total) =>
      let total := match total with
        | none => batch_total
        | some c => some c
      let all := all ++ pubmed_ids
      match total with
      | none => some (.error .typeError)
      | some c =>
        if (all.length : Int) ≥ c ∨ pubmed_ids.length < batch_size then
          some (.ok (all, reqs + 1))
        else
          pagerA env query batch_size fuel all (start + batch_size) (some c) (reqs + 1)

/-- The `while True` pager loop of `get_all_publications` in `src/pubmed.py`
(lines 77–86): no total-count bookkeeping, the loop breaks only on a short
page. -/
def pagerB (env : Env) (query : String) (batch_size : Nat) :
    Nat → List (Option String) → Nat → Nat →
    Option (Except PyErr (List (Option String) × Nat))
  | 0, _, _, _ => none
  | fuel + 1, all, start, reqs =>
    match search_pubmedB env query start batch_size with
    | .error e => some (.error e)
    | .ok pubmed_ids =>
      let all := all ++ pubmed_ids
      if pubmed_ids.length < batch_size then
        some (.ok (all, reqs + 1))
      else
        pagerB env query batch_size fuel all (start + batch_size) (reqs + 1)

/-- Structural worker for `chunks`: the first argument is fuel, always called
with at least the length of the list, so the fuel never runs out. -/
def chunksAux {α : Type} : Nat → List α → Nat → List (List α)
  | _, [], _ => []
  | _, _ :: _, 0 => []
  | 0, _ :: _, _ + 1 => []
  | fuel + 1, x :: xs, k + 1 =>
    ((x :: xs).take (k + 1)) :: chunksAux fuel ((x :: xs).drop (k + 1)) (k + 1)

/-- `for i in range(0, len(xs), k)` slicing `xs[i:i+k]`: the fixed-size
batches (the Python never calls this with `k = 0`, which would raise). -/
def chunks {α : Type} (xs : List α) (k : Nat) : List (List α) :=
  chunksAux xs.length xs k

/-- The batch-fetch loop of `get_all_publications` (both variants): fetch each
batch in order, accumulating records; an exception in one batch propagates and
discards everything.  The trace of issued fetch requests is threaded
through. -/
def fetchBatchesA (env : Env) : List (List (Option String)) →
    Except PyErr (List Article) × List String
  | [] => (.ok [], [])
  | b :: bs =>
    match fetch_pubmed_detailsA env b with
    | (.error e, tr) => (.error e, tr)
    | (.ok out, tr) =>
      match fetchBatchesA env bs with
      | (.error e, tr2) => (.error e, tr ++ tr2)
      | (.ok rest, tr2) => (.ok (out ++ rest), tr ++ tr2)

def fetchBatchesB (env : Env) : List (List (Option String)) →
    Except PyErr (List RowB) × List String
  | [] => (.ok [], [])
  | b :: bs =>
    match fetch_pubmed_detailsB env b with
    | (.error e, tr) => (.error e, tr)
    | (.ok out, tr) =>
      match fetchBatchesB env bs with
      | (.error e, tr2) => (.error e, tr ++ tr2)
      | (.ok rest, tr2) => (.ok (out ++ rest), tr ++ tr2)

/-- `get_all_publications` of `src/src/pubmed.py` (lines 79–112): run the
pager, then fetch the ids in `fetch_size`-sized batches.  Returns the record
list (or the propagated exception) together with the fetch-request trace. -/
def get_all_publicationsA (env : Env) (query : String)
    (batch_size fetch_size fuel : Nat) :
    Option (Except PyErr (List Article) × List String) :=
  match pagerA env query batch_size fuel [] 0 none 0 with
  | none => none
  | some (.error e) => some (.error e, [])
  | some (.ok (all_pubmed_ids, _)) =>
    some (fetchBatchesA env (chunks all_pubmed_ids fetch_size))

/-- `get_all_publications` of `src/pubmed.py` (lines 73–98). -/
def get_all_publicationsB (env : Env) (query : String)
    (batch_size fetch_size fuel : Nat) :
    Option (Except PyErr (List RowB) × List String) :=
  match pagerB env query batch_size fuel [] 0 0 with
  | none => none
  | some (.error e) => some (.error e, [])
  | some (.ok (all_pubmed_ids, _)) =>
    some (fetchBatchesB env (chunks all_pubmed_ids fetch_size))

/-! ### The sink and the whole scripts

The DuckDB file `pubmed_results.db` is modelled as `Option (List row)`:
`none` when the file does not exist, `some rows` for the contents of the
`publications` table.  `SUM` over an empty table is SQL `NULL`, modelled as
`none`; `COUNT` never returns `NULL`. -/

/-- `SUM(expr)` over a column of integers: `NULL` (`none`) when the table has
no rows. -/
def sqlSum (l : List Int) : Option Int :=
  match l with
  | [] => none
  | _ => some l.sum

/-- The summary query of `src/src/pubmed.py` (lines 155–161):
`COUNT(*)`, `SUM(CASE WHEN has_github_link THEN 1 ELSE 0 END)`,
`SUM(CASE WHEN NOT has_github_link THEN 1 ELSE 0 END)`. -/
def summaryA (table : List Article) : Nat × Option Int × Option Int :=
  (table.length,
   sqlSum (table.map (fun r => if r.has_github_link then (1 : Int) else 0)),
   sqlSum (table.map (fun r => if !r.has_github_link then (1 : Int) else 0)))

/-- Result of one run of `src/src/pubmed.py`: the summary (or the uncaught
exception), the trace of fetch requests issued, and the final state of the
`pubmed_results.db` file. -/
structure RunResultA where
  outcome : Except PyErr (Nat × Option Int × Option Int)
  fetchRequests : List String
  db : Option (List Article)

/-- The module-level script of `src/src/pubmed.py` (lines 114–170):
`get_all_publications("github")` with default sizes 100/100, then
`os.remove` of the database file if it exists, `duckdb.connect`,
`CREATE TABLE IF NOT EXISTS`, a bulk insert when `publications` is non-empty,
and the summary query.  An exception raised during retrieval propagates
uncaught, before any database statement runs, so the file is left as it
was. -/
def runScriptA (env : Env) (fs : Option (List Article)) (fuel : Nat) :
    Option RunResultA :=
  match get_all_publicationsA env "github" 100 100 fuel with
  | none => none
  | some (.error e, tr) => some ⟨.error e, tr, fs⟩
  | some (.ok publications, tr) =>
    -- os.remove if the file exists, connect afresh, create the table:
    -- the table always starts empty.
    let table : List Article := if publications.isEmpty then [] else publications
    some ⟨.ok (summaryA table), tr, some table⟩

/-- The summary query of `src/pubmed.py` (line 134):
`COUNT(*)`, `COUNT(github_link)` (counts non-NULL values, never NULL). -/
def summaryB (table : List RowB) : Nat × Nat :=
  (table.length, table.countP (fun r => r.github_link.isSome))

/-- Result of one run of `src/pubmed.py`. -/
structure RunResultB where
  outcome : Except PyErr (Nat × Nat)
  fetchRequests : List String
  db : Option (List RowB)

/-- The module-level script of `src/pubmed.py` (lines 100–142):
`get_all_publications("github")` with default sizes 10000/100, then
`duckdb.connect` on the existing file (no removal), `CREATE TABLE IF NOT
EXISTS` (which keeps any rows from a previous run), a bulk insert when
`publications` is non-empty, and the summary query. -/
def runScriptB (env : Env) (fs : Option (List RowB)) (fuel : Nat) :
    Option RunResultB :=
  match get_all_publicationsB env "github" 10000 100 fuel with
  | none => none
  | some (.error e, tr) => some ⟨.error e, tr, fs⟩
  | some (.ok publications, tr) =>
    let existing : List RowB := fs.getD []
    let table : List RowB :=
      if publications.isEmpty then existing else existing ++ publications
    some ⟨.ok (summaryB table), tr, some table⟩

/-! ### Mock endpoints for the testable properties -/

/-- An `<Id>` element of an esearch response. -/
def mkId (i : String) : XElem := .mk "Id" (some i) [] none

/-- An esearch response body: optional `<Count>` child and an `<IdList>` of
`<Id>` elements. -/
def mkSearchBody (count : Option String) (ids : List String) : XElem :=
  .mk "eSearchResult" none
    ((match count with
      | some c => [XElem.mk "Count" (some c) [] none]
      | none => []) ++
     [XElem.mk "IdList" none (ids.map mkId) none]) none

/-- The slice of the matching-record list a search page delivers for
`retstart`/`retmax`. -/
def pageSlice (ids : List String) (rs rm : Nat) : List String :=
  (ids.drop rs).take rm

/-- A search endpoint backed by a fixed list of matching record ids and a
fixed reported `Count`: each page is the requested slice of the list. -/
def searchEndpoint (trueIds : List String) (count : Option String) :
    String → Nat → Nat → HttpResponse :=
  fun _ rs rm => ⟨200, mkSearchBody count (pageSlice trueIds rs rm)⟩

/-- A mock environment whose fetch endpoint returns a fixed status and a fixed
`<PubmedArticleSet>` of article sub-documents. -/
def mockEnv (trueIds : List String) (count : Option String)
    (articles : List XElem) (fetchStatus : Nat) : Env :=
  ⟨searchEndpoint trueIds count,
   fun _ => ⟨fetchStatus, .mk "PubmedArticleSet" none articles none⟩⟩

/-- A typical `<PubmedArticle>` sub-document with a PMID, a title, and an
optional single-section abstract. -/
def stdArticle (pmid title : String) (abstract : Option String) : XElem :=
  .mk "PubmedArticle" none
    [.mk "MedlineCitation" none
      [.mk "PMID" (some pmid) [] none,
       .mk "Article" none
         ([XElem.mk "ArticleTitle" (some title) [] none] ++
          (match abstract with
           | some a => [XElem.mk "Abstract" none
                          [XElem.mk "AbstractText" (some a) [] none] none]
           | none => [])) none] none] none

/-! ### Concrete scenario inputs -/

/-- A `<PubmedArticle>` sub-document with a PMID but no `ArticleTitle`
node. -/
def artNoTitle : XElem :=
  .mk "PubmedArticle" none
    [.mk "MedlineCitation" none [.mk "PMID" (some "1") [] none] none] none

/-- A sub-document whose only occurrence of the link pattern is in tail
position: text following an inline child element of the title. -/
def artTailLink : XElem :=
  .mk "PubmedArticle" none
    [.mk "ArticleTitle" (some "T")
      [.mk "i" (some "x") [] (some "see https://github.com/a/b done")] none] none

/-- A sub-document whose abstract is split into two `AbstractText`
sections. -/
def artTwoSections : XElem :=
  .mk "PubmedArticle" none
    [.mk "MedlineCitation" none
      [.mk "PMID" (some "2") [] none,
       .mk "Article" none
         [.mk "ArticleTitle" (some "T2") [] none,
          .mk "Abstract" none
            [.mk "AbstractText" (some "First section.") [] none,
             .mk "AbstractText" (some "Second section.") [] none] none] none] none] none

/-- A sub-document whose `AbstractText` starts with an inline child element,
so the element's `.text` is `None` although abstract text exists in the child
and in its tail. -/
def artMarkup : XElem :=
  .mk "PubmedArticle" none
    [.mk "MedlineCitation" none
      [.mk "PMID" (some "3") [] none,
       .mk "Article" none
         [.mk "ArticleTitle" (some "T3") [] none,
          .mk "Abstract" none
            [.mk "AbstractText" none
              [.mk "i" (some "Background") [] (some " rest of the abstract.")] none] none] none] none] none

/-- A sub-document with the pattern in two different elements (title first,
abstract second). -/
def artTwoLinks : XElem :=
  .mk "PubmedArticle" none
    [.mk "ArticleTitle" (some "intro http://github.com/first/one here") [] none,
     .mk "Abstract" none
       [.mk "AbstractText" (some "also http://github.com/second/two") [] none] none] none

/-! ### Helper lemmas -/

theorem lit_append (p rest : List Char) : lit p (p ++ rest) = some rest := by
  induction p with
  | nil => rfl
  | cons c cs ih => simp [lit, ih]

theorem takeRun_eq (run rest : List Char) (hrun : ∀ c ∈ run, goodChar c = true)
    (hrest : rest = [] ∨ ∃ c cs, rest = c :: cs ∧ goodChar c = false) :
    takeRun (run ++ rest) = (run, rest) := by
  induction run with
  | nil =>
    rcases hrest with h | ⟨c, cs, hcc, hc⟩
    · subst h; rfl
    · subst hcc; simp [takeRun, hc]
  | cons a t ih =>
    have ha := hrun a (by simp)
    simp [takeRun, ha, ih (fun c hc => hrun c (List.mem_cons_of_mem _ hc))]

/-- The regex matches at the start of `https://github.com/<owner>/<repo><rest>`
when owner and repo are non-empty runs of `[^\s/]` characters and `rest` is
empty or starts with a character outside the class; the match stops at the end
of the repo run. -/
theorem matchAt_github (owner repo rest : List Char) (ho : owner ≠ [])
    (hgo : ∀ c ∈ owner, goodChar c = true) (hr : repo ≠ [])
    (hgr : ∀ c ∈ repo, goodChar c = true)
    (hrest : rest = [] ∨ ∃ c cs, rest = c :: cs ∧ goodChar c = false) :
    matchAt ("https://github.com/".data ++ owner ++ '/' :: (repo ++ rest)) =
      some ("https://github.com/".data ++ owner ++ '/' :: repo) := by
  obtain ⟨a, ow, rfl⟩ : ∃ a ow, owner = a :: ow := by
    cases owner with
    | nil => exact absurd rfl ho
    | cons a ow => exact ⟨a, ow, rfl⟩
  obtain ⟨b, rp, rfl⟩ : ∃ b rp, repo = b :: rp := by
    cases repo with
    | nil => exact absurd rfl hr
    | cons b rp => exact ⟨b, rp, rfl⟩
  have key : ("https://github.com/".data ++ (a :: ow) ++ '/' :: ((b :: rp) ++ rest)) =
      "http".data ++ ('s' :: ("://".data ++ ("github.com/".data ++
        ((a :: ow) ++ '/' :: ((b :: rp) ++ rest))))) := rfl
  have h1 : takeRun ((a :: ow) ++ '/' :: ((b :: rp) ++ rest)) =
      (a :: ow, '/' :: ((b :: rp) ++ rest)) :=
    takeRun_eq _ _ hgo (Or.inr ⟨'/', _, rfl, by decide⟩)
  have h2 : takeRun ((b :: rp) ++ rest) = (b :: rp, rest) := takeRun_eq _ _ hgr hrest
  rw [matchAt, key, lit_append]
  simp only [lit_append]
  simp only [List.cons_append, List.append_assoc] at h1 h2
  simp [lit, h1, h2]

/-- `re.search` on a string that starts with a well-formed GitHub link returns
the link (the match at position 0 wins). -/
theorem searchGithub_github (owner repo rest : List Char) (ho : owner ≠ [])
    (hgo : ∀ c ∈ owner, goodChar c = true) (hr : repo ≠ [])
    (hgr : ∀ c ∈ repo, goodChar c = true)
    (hrest : rest = [] ∨ ∃ c cs, rest = c :: cs ∧ goodChar c = false) :
    searchGithub (String.mk ("https://github.com/".data ++ owner ++ '/' :: (repo ++ rest))) =
      some (String.mk ("https://github.com/".data ++ owner ++ '/' :: repo)) := by
  have hm := matchAt_github owner repo rest ho hgo hr hgr hrest
  have hd : (String.mk ("https://github.com/".data ++ owner ++ '/' :: (repo ++ rest))).data =
      'h' :: ("ttps://github.com/".data ++ owner ++ '/' :: (repo ++ rest)) := rfl
  have hc : ('h' :: ("ttps://github.com/".data ++ owner ++ '/' :: (repo ++ rest))) =
      "https://github.com/".data ++ owner ++ '/' :: (repo ++ rest) := rfl
  unfold searchGithub
  rw [hd, searchChars, hc, hm]
  rfl

theorem findLoop_none (l : List XElem) (h : ∀ e ∈ l, scanText e = none) :
    findLoop l = none := by
  induction l with
  | nil => rfl
  | cons e rest ih =>
    have he := h e (by simp)
    simp only [findLoop, he]
    exact ih (fun x hx => h x (List.mem_cons_of_mem _ hx))

theorem findLoop_some (l : List XElem) (m : String) (h : findLoop l = some m) :
    ∃ e ∈ l, scanText e = some m := by
  induction l with
  | nil => simp [findLoop] at h
  | cons e rest ih =>
    rw [findLoop] at h
    cases hs : scanText e with
    | some m2 =>
      rw [hs] at h
      exact ⟨e, by simp, by simpa using h ▸ hs⟩
    | none =>
      rw [hs] at h
      obtain ⟨x, hx, hsx⟩ := ih h
      exact ⟨x, List.mem_cons_of_mem _ hx, hsx⟩

theorem parseArticleA_has (article : XElem) (r : Article)
    (h : parseArticleA article = .ok r) :
    r.has_github_link = r.github_link.isSome := by
  unfold parseArticleA at h
  cases hp : findDesc article "PMID" with
  | none => rw [hp] at h; exact absurd h (by simp)
  | some pe =>
    rw [hp] at h
    cases ht : findDesc article "ArticleTitle" with
    | none => rw [ht] at h; exact absurd h (by simp)
    | some te =>
      rw [ht] at h
      simp only [Except.ok.injEq] at h
      subst h
      rfl

theorem parseArticlesA_has (l : List XElem) (out : List Article)
    (h : parseArticlesA l = .ok out) :
    ∀ r ∈ out, r.has_github_link = r.github_link.isSome := by
  induction l generalizing out with
  | nil =>
    simp only [parseArticlesA, Except.ok.injEq] at h
    subst h
    intro r hr
    exact absurd hr (by simp)
  | cons a rest ih =>
    rw [parseArticlesA] at h
    cases h1 : parseArticleA a with
    | error e => rw [h1] at h; exact absurd h (by simp)
    | ok r1 =>
      rw [h1] at h
      cases h2 : parseArticlesA rest with
      | error e => rw [h2] at h; exact absurd h (by simp)
      | ok rs =>
        rw [h2] at h
        simp only [Except.ok.injEq] at h
        subst h
        intro r hr
        rcases List.mem_cons.mp hr with hr1 | hr2
        · subst hr1; exact parseArticleA_has a r h1
        · exact ih rs h2 r hr2

theorem fetchA_has (env : Env) (ids : List (Option String)) (out : List Article)
    (tr : List String) (h : fetch_pubmed_detailsA env ids = (.ok out, tr)) :
    ∀ r ∈ out, r.has_github_link = r.github_link.isSome := by
  unfold fetch_pubmed_detailsA at h
  by_cases he : ids.isEmpty
  · rw [if_pos he] at h
    injection h with h1 h2
    injection h1 with h1
    subst h1
    intro r hr
    exact absurd hr (by simp)
  · rw [if_neg he] at h
    split at h
    · injection h with h1 _
      exact absurd h1 (by simp)
    · dsimp only at h
      split at h
      · injection h with h1 _
        exact parseArticlesA_has _ _ h1
      · injection h with h1 _
        exact absurd h1 (by simp)

theorem fetchBatchesA_has (env : Env) (bs : List (List (Option String)))
    (out : List Article) (tr : List String)
    (h : fetchBatchesA env bs = (.ok out, tr)) :
    ∀ r ∈ out, r.has_github_link = r.github_link.isSome := by
  induction bs generalizing out tr with
  | nil =>
    simp only [fetchBatchesA] at h
    injection h with h1 _
    injection h1 with h1
    subst h1
    intro r hr
    exact absurd hr (by simp)
  | cons b rest ih =>
    rw [fetchBatchesA] at h
    cases h1 : fetch_pubmed_detailsA env b with
    | mk res1 tr1 =>
      cases res1 with
      | error e => rw [h1] at h; injection h with h2 _; exact absurd h2 (by simp)
      | ok out1 =>
        rw [h1] at h
        cases h2 : fetchBatchesA env rest with
        | mk res2 tr2 =>
          cases res2 with
          | error e => rw [h2] at h; injection h with h3 _; exact absurd h3 (by simp)
          | ok out2 =>
            rw [h2] at h
            injection h with h3 _
            injection h3 with h3
            subst h3
            intro r hr
            rcases List.mem_append.mp hr with hr1 | hr2
            · exact fetchA_has env b out1 tr1 h1 r hr1
            · exact ih out2 tr2 h2 r hr2

theorem get_allA_has (env : Env) (q : String) (bsz fsz fuel : Nat)
    (pubs : List Article) (tr : List String)
    (h : get_all_publicationsA env q bsz fsz fuel = some (.ok pubs, tr)) :
    ∀ r ∈ pubs, r.has_github_link = r.github_link.isSome := by
  unfold get_all_publicationsA at h
  cases hp : pagerA env q bsz fuel [] 0 none 0 with
  | none => rw [hp] at h; exact absurd h (by simp)
  | some res =>
    rw [hp] at h
    cases res with
    | error e => exact absurd h (by simp)
    | ok ids =>
      simp only [Option.some.injEq] at h
      exact fetchBatchesA_has env _ pubs tr (by rw [← h])

theorem sum_indicator {α : Type} (p : α → Bool) (l : List α) :
    (l.map (fun a => if p a then (1 : Int) else 0)).sum = l.countP p := by
  induction l with
  | nil => simp
  | cons a t ih =>
    simp only [List.map_cons, List.sum_cons, List.countP_cons, ih]
    by_cases h : p a <;> simp [h] <;> omega

theorem countP_not_add {α : Type} (p : α → Bool) (l : List α) :
    l.countP p + l.countP (fun a => !p a) = l.length := by
  induction l with
  | nil => rfl
  | cons a t ih => by_cases h : p a <;> simp [List.countP_cons, h] <;> omega

theorem sqlSum_map {α : Type} (f : α → Int) (a : α) (l : List α) :
    sqlSum ((a :: l).map f) = some (((a :: l).map f).sum) := by
  simp [sqlSum]

theorem summaryA_eq (t : List Article) (hne : t ≠ []) :
    summaryA t =
      (t.length,
       some ((t.countP (fun r => r.has_github_link) : Nat) : Int),
       some ((t.length : Int) - ((t.countP (fun r => r.has_github_link) : Nat) : Int))) := by
  obtain ⟨a, t2, rfl⟩ : ∃ a t2, t = a :: t2 := by
    cases t with
    | nil => exact absurd rfl hne
    | cons a t2 => exact ⟨a, t2, rfl⟩
  have e1 := sum_indicator (fun r : Article => r.has_github_link) (a :: t2)
  have e2 := sum_indicator (fun r : Article => !r.has_github_link) (a :: t2)
  have e3 := countP_not_add (fun r : Article => r.has_github_link) (a :: t2)
  unfold summaryA
  rw [sqlSum_map, sqlSum_map, e1, e2]
  simp only [Prod.mk.injEq, Option.some.injEq]
  refine ⟨trivial, trivial, ?_⟩
  omega

theorem runScriptA_ok (env : Env) (fs : Option (List Article)) (fuel : Nat)
    (res : RunResultA) (s : Nat × Option Int × Option Int)
    (h : runScriptA env fs fuel = some res) (ho : res.outcome = .ok s) :
    ∃ pubs tr, get_all_publicationsA env "github" 100 100 fuel = some (.ok pubs, tr) ∧
      res.db = some pubs ∧ s = summaryA pubs ∧ res.fetchRequests = tr := by
  have htab : ∀ l : List Article, (if l.isEmpty then ([] : List Article) else l) = l := by
    intro l
    cases l <;> simp
  unfold runScriptA at h
  cases hg : get_all_publicationsA env "github" 100 100 fuel with
  | none => rw [hg] at h; exact absurd h (by simp)
  | some pr =>
    rw [hg] at h
    obtain ⟨resx, trx⟩ := pr
    cases resx with
    | error e =>
      simp only [Option.some.injEq] at h
      rw [← h] at ho
      exact absurd ho (by simp)
    | ok pubs =>
      simp only [Option.some.injEq, htab] at h
      rw [← h] at ho
      simp only [Except.ok.injEq] at ho
      exact ⟨pubs, trx, rfl, by rw [← h], by rw [← ho], by rw [← h]⟩

/-- Evaluation of `search_pubmed` (variant A) against the mock search
endpoint: every page is the requested slice, with the reported count. -/
theorem search_mock (trueIds : List String) (count : String) (arts : List XElem)
    (st : Nat) (q : String) (rs rm : Nat) (C : Int) (HC : parsePyInt count = .ok C) :
    search_pubmedA (mockEnv trueIds (some count) arts st) q rs rm =
      .ok ((pageSlice trueIds rs rm).map some, some C) := by
  unfold search_pubmedA mockEnv searchEndpoint mkSearchBody
  simp [childrenNamed, findChild, XElem.children, XElem.tag, XElem.text, mkId,
        List.filter_map, Function.comp_def, HC]

/-- Against the mock endpoint the first page always delivers the count, so
starting the loop with `total_count = None` is the same as starting it with
the count. -/
theorem pagerA_mock_none (trueIds : List String) (count : String) (C : Int)
    (arts : List XElem) (st : Nat) (q : String) (bs : Nat)
    (HC : parsePyInt count = .ok C) (fuel : Nat)
    (all : List (Option String)) (start reqs : Nat) :
    pagerA (mockEnv trueIds (some count) arts st) q bs fuel all start none reqs =
      pagerA (mockEnv trueIds (some count) arts st) q bs fuel all start (some C) reqs := by
  cases fuel with
  | zero => rfl
  | succ n => simp only [pagerA, search_mock trueIds count arts st q start bs C HC]

/-- Completeness of the variant-A pager loop when the reported count is at
least the number of deliverable records: with enough fuel the loop terminates
and accumulates exactly the whole list. -/
theorem pagerA_mock (trueIds : List String) (count : String) (C : Int)
    (arts : List XElem) (st : Nat) (q : String) (bs : Nat)
    (HC : parsePyInt count = .ok C) (hbs : 1 ≤ bs)
    (hTC : (trueIds.length : Int) ≤ C) :
    ∀ fuel start reqs, start ≤ trueIds.length → trueIds.length + 1 - start ≤ fuel →
      ∃ k, pagerA (mockEnv trueIds (some count) arts st) q bs fuel
          ((trueIds.take start).map some) start (some C) reqs =
        some (.ok (trueIds.map some, k)) := by
  intro fuel
  induction fuel with
  | zero => intro start reqs _ hfuel; omega
  | succ n ih =>
    intro start reqs hstart hfuel
    have hsearch := search_mock trueIds count arts st q start bs C HC
    have hall : (trueIds.take start).map some ++ (pageSlice trueIds start bs).map some =
        (trueIds.take (start + bs)).map some := by
      rw [← List.map_append, pageSlice, ← List.take_add]
    have hlenall : ((trueIds.take (start + bs)).map some).length =
        min (start + bs) trueIds.length := by
      simp [List.length_take]
    have hlenpage : ((pageSlice trueIds start bs).map some).length =
        min bs (trueIds.length - start) := by
      simp [pageSlice, List.length_take, List.length_drop]
    simp only [pagerA, hsearch]
    rw [hall]
    by_cases hc : trueIds.length ≤ start + bs
    · rw [List.take_of_length_le hc]
      by_cases hbreak : ((trueIds.map some).length : Int) ≥ C ∨
          ((pageSlice trueIds start bs).map some).length < bs
      · rw [if_pos hbreak]
        exact ⟨reqs + 1, rfl⟩
      · rw [if_neg hbreak]
        push_neg at hbreak
        obtain ⟨h1, h2⟩ := hbreak
        rw [hlenpage] at h2
        have hre := ih (start + bs) (reqs + 1) (by omega) (by omega)
        rw [List.take_of_length_le hc] at hre
        exact hre
    · have hfalse : ¬ ((((trueIds.take (start + bs)).map some).length : Int) ≥ C ∨
          ((pageSlice trueIds start bs).map some).length < bs) := by
        push_neg
        rw [hlenall, hlenpage]
        constructor
        · omega
        · omega
      rw [if_neg hfalse]
      exact ih (start + bs) (reqs + 1) (by omega) (by omega)

/-! ### The claims -/

/-- C1, corrected.  The original claim — the accumulated id count always
equals `min totalCount T` where `T` is the number of records the endpoint can
deliver — fails (see `claim_C1_counterexample`): the loop only checks the
accumulated count *after* extending by a full page, so when the endpoint can
deliver more records than `totalCount` the accumulation overshoots.  Amended:
whenever `T ≤ totalCount` (the count is correct or over-reported), the Pager
loop of `get_all_publications` accumulates exactly the `T` ids, i.e.
`min totalCount T`; and scenario A holds: for `totalCount = 3` and ids
`["1","2","3"]` on one page (page size 100 ≥ 3) the loop returns exactly those
three ids after a single search request, requesting no further pages. -/
theorem claim_C1_amended (trueIds : List String) (count : String) (C : Int)
    (arts : List XElem) (st : Nat) (q : String) (bs fuel : Nat)
    (HC : parsePyInt count = .ok C) (hbs : 1 ≤ bs)
    (hTC : (trueIds.length : Int) ≤ C) (hfuel : trueIds.length + 1 ≤ fuel) :
    (∃ k, pagerA (mockEnv trueIds (some count) arts st) q bs fuel [] 0 none 0 =
        some (.ok (trueIds.map some, k))) ∧
    pagerA (mockEnv ["1", "2", "3"] (some "3") [] 200) "github" 100 5 [] 0 none 0 =
      some (.ok ([some "1", some "2", some "3"], 1)) := by
  constructor
  · rw [pagerA_mock_none trueIds count C arts st q bs HC fuel [] 0 0]
    have h := pagerA_mock trueIds count C arts st q bs HC hbs hTC fuel 0 0 (by omega) (by omega)
    simpa using h
  · rfl

/-- C1, counterexample to the claim as stated: a mock endpoint that reports
`totalCount = 3` but can deliver 4 ids in the first page.  The Pager
accumulates all 4 ids, not `min 3 4 = 3`. -/
theorem claim_C1_counterexample :
    pagerA (mockEnv ["1", "2", "3", "4"] (some "3") [] 200) "github" 100 5 [] 0 none 0 =
      some (.ok ([some "1", some "2", some "3", some "4"], 1)) ∧
    ¬ (([some "1", some "2", some "3", some "4"] : List (Option String)).length = min 3 4) := by
  exact ⟨rfl, by decide⟩

/-- Witness for `claim_C1_amended` at a concrete multi-page input
(`totalCount = 3`, three ids, page size 2). -/
theorem claim_C1_witness :
    ∃ k, pagerA (mockEnv ["1", "2", "3"] (some "3") [] 200) "q" 2 5 [] 0 none 0 =
      some (.ok ([some "1", some "2", some "3"], k)) := by
  have h := (claim_C1_amended ["1", "2", "3"] "3" 3 [] 200 "q" 2 5 rfl (by omega)
    (by decide) (by decide)).1
  simpa using h

/-- C2, corrected.  The claim holds for `src/src/pubmed.py`, which removes the
database file before connecting; but `src/pubmed.py` — which the claim also
covers — performs no removal and only `CREATE TABLE IF NOT EXISTS`, so its
second run *appends* (see `claim_C2_counterexample`).  Amended: in the
`src/src/pubmed.py` variant the successful run's sink table and summary are
independent of the prior state of the database file (full refresh), so two
runs against identical remote responses leave identical row counts; in the
`src/pubmed.py` variant the second run appends to the first run's rows. -/
theorem claim_C2_amended (env : Env) (fs1 fs2 : Option (List Article)) (fuel : Nat)
    (r1 r2 : RunResultA) (s1 s2 : Nat × Option Int × Option Int)
    (h1 : runScriptA env fs1 fuel = some r1) (h2 : runScriptA env fs2 fuel = some r2)
    (ho1 : r1.outcome = .ok s1) (ho2 : r2.outcome = .ok s2) :
    r1.db = r2.db ∧ s1 = s2 := by
  obtain ⟨p1, t1, hg1, hdb1, hs1, _⟩ := runScriptA_ok env fs1 fuel r1 s1 h1 ho1
  obtain ⟨p2, t2, hg2, hdb2, hs2, _⟩ := runScriptA_ok env fs2 fuel r2 s2 h2 ho2
  rw [hg1] at hg2
  simp only [Option.some.injEq, Prod.mk.injEq, Except.ok.injEq] at hg2
  obtain ⟨hp, -⟩ := hg2
  subst hp
  rw [hdb1, hdb2, hs1, hs2]
  exact ⟨rfl, rfl⟩

/-- C2, counterexample to the claim as stated, on the `src/pubmed.py` variant:
re-running the script against an unchanged mock endpoint (one record) leaves a
1-row table after the first run and a 2-row table after the second — the
second run appends. -/
theorem claim_C2_counterexample :
    runScriptB (mockEnv ["1"] (some "1") [stdArticle "1" "T" none] 200) none 5 =
      some ⟨.ok (1, 0), ["1"], some [⟨some "1", some "T", none, none⟩]⟩ ∧
    runScriptB (mockEnv ["1"] (some "1") [stdArticle "1" "T" none] 200)
        (some [⟨some "1", some "T", none, none⟩]) 5 =
      some ⟨.ok (2, 0), ["1"],
            some [⟨some "1", some "T", none, none⟩, ⟨some "1", some "T", none, none⟩]⟩ ∧
    (1 : Nat) ≠ 2 := by
  exact ⟨rfl, rfl, by decide⟩

/-- Witness for `claim_C2_amended`: two successive runs of the
`src/src/pubmed.py` script (the second starting from the file the first left
behind) produce the same table and the same summary. -/
theorem claim_C2_witness :
    runScriptA (mockEnv ["1"] (some "1") [stdArticle "1" "T" none] 200) none 5 =
      some ⟨.ok (1, some 0, some 1), ["1"],
            some [⟨some "1", some "T", none, none, false⟩]⟩ ∧
    runScriptA (mockEnv ["1"] (some "1") [stdArticle "1" "T" none] 200)
        (some [⟨some "1", some "T", none, none, false⟩]) 5 =
      some ⟨.ok (1, some 0, some 1), ["1"],
            some [⟨some "1", some "T", none, none, false⟩]⟩ ∧
    (some [(⟨some "1", some "T", none, none, false⟩ : Article)] : Option (List Article)) =
      some [⟨some "1", some "T", none, none, false⟩] ∧
    ((1 : Nat), (some 0 : Option Int), (some 1 : Option Int)) = (1, some 0, some 1) :=
  ⟨rfl, rfl,
   claim_C2_amended (mockEnv ["1"] (some "1") [stdArticle "1" "T" none] 200)
     none (some [⟨some "1", some "T", none, none, false⟩]) 5
     ⟨.ok (1, some 0, some 1), ["1"], some [⟨some "1", some "T", none, none, false⟩]⟩
     ⟨.ok (1, some 0, some 1), ["1"], some [⟨some "1", some "T", none, none, false⟩]⟩
     (1, some 0, some 1) (1, some 0, some 1) rfl rfl rfl rfl⟩

/-- C3, counterexample to the claim as stated: a sub-document with a PMID but
no `ArticleTitle` node makes `fetch_pubmed_details` raise `AttributeError`
(`article.find(".//ArticleTitle")` is `None` and `.text` is taken unguarded)
instead of producing a Record with an absent title; a missing abstract, by
contrast, is tolerated. -/
theorem claim_C3_counterexample :
    fetch_pubmed_detailsA (mockEnv [] none [artNoTitle] 200) [some "1"] =
      (.error .attributeError, ["1"]) ∧
    fetch_pubmed_detailsA (mockEnv [] none [stdArticle "1" "T" none] 200) [some "1"] =
      (.ok [⟨some "1", some "T", none, none, false⟩], ["1"]) := ⟨rfl, rfl⟩

/-- C3, amended: a missing abstract node is tolerated — the Record is produced
with `abstract` absent and no error — but a missing title node is *not*
tolerated the same way: it raises `AttributeError` and no Record results. -/
theorem claim_C3_amended (article : XElem) (pe : XElem)
    (hp : findDesc article "PMID" = some pe) :
    (findDesc article "ArticleTitle" = none →
      parseArticleA article = .error .attributeError) ∧
    (∀ te, findDesc article "ArticleTitle" = some te →
      parseArticleA article = .ok
        { pmid := pe.text, title := te.text,
          abstract := (findAbstractTextElem article).bind XElem.text,
          github_link := find_github_link article,
          has_github_link := (find_github_link article).isSome }) := by
  constructor
  · intro ht
    unfold parseArticleA
    rw [hp, ht]
  · intro te ht
    unfold parseArticleA
    rw [hp, ht]

/-- Witness for `claim_C3_amended` at the concrete title-less
sub-document. -/
theorem claim_C3_witness :
    parseArticleA artNoTitle = .error .attributeError :=
  (claim_C3_amended artNoTitle (.mk "PMID" (some "1") [] none) rfl).1 rfl

/-- C4, counterexample to the claim as stated: the regex is compiled without
`re.IGNORECASE`, so an uppercase scheme/host variant of the URL is *not*
matched. -/
theorem claim_C4_counterexample :
    find_github_link (stdArticle "1" "T" (some "see HTTPS://github.com/acme/tool for code")) =
      none ∧
    searchGithub "HTTPS://github.com/acme/tool" = none := ⟨rfl, rfl⟩

/-- C4, amended: matching is case-sensitive, against the lowercase pattern
`https?://(?:www\.)?github\.com/[^\s/]+/[^\s/]+`.  For any non-empty runs of
non-whitespace non-slash characters as owner and repo, a text starting with
the lowercase link yields exactly that link; scenario B (the abstract
`"see https://github.com/acme/tool for code"`) yields
`extractedLink = "https://github.com/acme/tool"` with `hasExtractedLink`
true; the `www.` and plain-`http` forms match; and the uppercase variant of
the same URL yields no match. -/
theorem claim_C4_amended (owner repo rest : List Char) (ho : owner ≠ [])
    (hgo : ∀ c ∈ owner, goodChar c = true) (hr : repo ≠ [])
    (hgr : ∀ c ∈ repo, goodChar c = true)
    (hrest : rest = [] ∨ ∃ c cs, rest = c :: cs ∧ goodChar c = false) :
    searchGithub (String.mk ("https://github.com/".data ++ owner ++ '/' :: (repo ++ rest))) =
      some (String.mk ("https://github.com/".data ++ owner ++ '/' :: repo)) ∧
    (fetch_pubmed_detailsA (mockEnv ["1"] (some "1")
        [stdArticle "1" "A tool" (some "see https://github.com/acme/tool for code")] 200)
      [some "1"]).1 =
      .ok [{ pmid := some "1", title := some "A tool",
             abstract := some "see https://github.com/acme/tool for code",
             github_link := some "https://github.com/acme/tool",
             has_github_link := true }] ∧
    searchGithub "x http://www.github.com/a/b y" = some "http://www.github.com/a/b" ∧
    searchGithub "see HTTPS://github.com/acme/tool for code" = none :=
  ⟨searchGithub_github owner repo rest ho hgo hr hgr hrest, rfl, rfl, rfl⟩

/-- Witness for `claim_C4_amended` at owner `acme`, repo `tool`. -/
theorem claim_C4_witness :
    searchGithub "https://github.com/acme/tool" = some "https://github.com/acme/tool" := by
  have h := (claim_C4_amended "acme".data "tool".data [] (by decide) (by decide)
    (by decide) (by decide) (Or.inl rfl)).1
  simpa using h

/-- C5, confirmed: for every Record produced by `fetch_pubmed_details` (variant
A), `has_github_link` is exactly `github_link.isSome`, and the same invariant
holds for every row of the sink table left by a successful run of the
script. -/
theorem claim_C5 :
    (∀ env ids out tr, fetch_pubmed_detailsA env ids = (.ok out, tr) →
       ∀ r ∈ out, r.has_github_link = r.github_link.isSome) ∧
    (∀ env fs fuel res s t, runScriptA env fs fuel = some res →
       res.outcome = .ok s → res.db = some t →
       ∀ r ∈ t, r.has_github_link = r.github_link.isSome) := by
  constructor
  · exact fun env ids out tr h => fetchA_has env ids out tr h
  · intro env fs fuel res s t h ho hdb r hr
    obtain ⟨pubs, tr, hg, hdb2, -, -⟩ := runScriptA_ok env fs fuel res s h ho
    rw [hdb] at hdb2
    injection hdb2 with hdb2
    subst hdb2
    exact get_allA_has env "github" 100 100 fuel t tr hg r hr

/-- Witness for `claim_C5` at the scenario-B record. -/
theorem claim_C5_witness :
    (Article.mk (some "1") (some "A tool")
      (some "see https://github.com/acme/tool for code")
      (some "https://github.com/acme/tool") true).has_github_link =
    (Article.mk (some "1") (some "A tool")
      (some "see https://github.com/acme/tool for code")
      (some "https://github.com/acme/tool") true).github_link.isSome :=
  claim_C5.1 (mockEnv ["1"] (some "1")
      [stdArticle "1" "A tool" (some "see https://github.com/acme/tool for code")] 200)
    [some "1"]
    [Article.mk (some "1") (some "A tool")
      (some "see https://github.com/acme/tool for code")
      (some "https://github.com/acme/tool") true] ["1"] rfl
    (Article.mk (some "1") (some "A tool")
      (some "see https://github.com/acme/tool for code")
      (some "https://github.com/acme/tool") true) (by simp)

/-- C6, code bug.  The claim (and the spec's edge case) says the loop
tolerates an absent `totalCount`, relying solely on the short-page signal.
The `src/pubmed.py` variant does exactly that; but in `src/src/pubmed.py`
the break test evaluates `len(all_pubmed_ids) >= total_count` with
`total_count = None` first, raising `TypeError` — even though the same file
deliberately treats the `Count` field as optional when parsing it. -/
theorem claim_C6_divergence :
    pagerA (mockEnv ["1"] none [] 200) "github" 100 5 [] 0 none 0 =
      some (.error .typeError) ∧
    pagerB (mockEnv ["1"] none [] 200) "github" 10000 5 [] 0 0 =
      some (.ok ([some "1"], 1)) := ⟨rfl, rfl⟩

/-- C7, confirmed: when retrieval raises (any non-success HTTP status from
either endpoint propagates as `PyErr.httpError`), the whole run aborts with
that error and the database file is left exactly as it was — insertion only
happens in the success path, after all batches; and each
`fetch_pubmed_details` call issues at most one HTTP request (no retry). -/
theorem claim_C7 :
    (∀ env fs fuel e tr,
       get_all_publicationsA env "github" 100 100 fuel = some (.error e, tr) →
       runScriptA env fs fuel = some ⟨.error e, tr, fs⟩) ∧
    (∀ env ids, (fetch_pubmed_detailsA env ids).2.length ≤ 1) := by
  constructor
  · intro env fs fuel e tr h
    unfold runScriptA
    rw [h]
  · intro env ids
    unfold fetch_pubmed_detailsA
    split
    · simp
    · split
      · simp
      · dsimp only
        split
        · simp
        · simp

/-- Witness for `claim_C7`: scenario D — the fetch endpoint returns HTTP 500;
the run aborts with the status error after exactly one fetch request and the
absent database file stays absent (no rows ever inserted). -/
theorem claim_C7_witness :
    runScriptA (mockEnv ["1"] (some "1") [] 500) none 5 =
      some ⟨.error (.httpError 500), ["1"], none⟩ :=
  claim_C7.1 (mockEnv ["1"] (some "1") [] 500) none 5 (.httpError 500) ["1"] rfl

/-- C8, counterexample to the claim as stated: when the pipeline persists
`N = 0` records (empty search result), `COUNT(*)` is `0` but
`SUM(CASE WHEN ... )` over the empty table is SQL `NULL`, so the summary
reports `(0, NULL, NULL)`, not `withPattern = 0` and `withoutPattern = 0`. -/
theorem claim_C8_counterexample :
    runScriptA (mockEnv [] (some "0") [] 200) none 5 =
      some ⟨.ok (0, none, none), [], some []⟩ ∧
    (none : Option Int) ≠ some 0 := ⟨rfl, by decide⟩

/-- C8, amended: after a successful run persisting a *non-empty* table of `N`
records of which `K` have `extractedLink` present, the summary query over the
persisted table reports `total = N`, `withPattern = K`,
`withoutPattern = N - K`. -/
theorem claim_C8_amended (env : Env) (fs : Option (List Article)) (fuel : Nat)
    (res : RunResultA) (s : Nat × Option Int × Option Int) (t : List Article)
    (h : runScriptA env fs fuel = some res) (ho : res.outcome = .ok s)
    (hd : res.db = some t) (hne : t ≠ []) :
    s = (t.length,
         some ((t.countP (fun r => r.github_link.isSome) : Nat) : Int),
         some ((t.length : Int) -
               ((t.countP (fun r => r.github_link.isSome) : Nat) : Int))) := by
  obtain ⟨pubs, tr, hg, hdb2, hs, -⟩ := runScriptA_ok env fs fuel res s h ho
  rw [hd] at hdb2
  injection hdb2 with hdb2
  subst hdb2
  have hinv := get_allA_has env "github" 100 100 fuel t tr hg
  have hcount : t.countP (fun r => r.has_github_link) =
      t.countP (fun r => r.github_link.isSome) :=
    List.countP_congr (fun r hr => by rw [hinv r hr])
  rw [hs, summaryA_eq t hne, hcount]

/-- Witness for `claim_C8_amended` at the scenario-B run
(`N = 1`, `K = 1`). -/
theorem claim_C8_witness :
    ((1 : Nat), (some 1 : Option Int), (some 0 : Option Int)) =
      (([Article.mk (some "1") (some "A tool")
           (some "see https://github.com/acme/tool for code")
           (some "https://github.com/acme/tool") true] : List Article).length,
       some ((([Article.mk (some "1") (some "A tool")
           (some "see https://github.com/acme/tool for code")
           (some "https://github.com/acme/tool") true] : List Article).countP
             (fun r => r.github_link.isSome) : Nat) : Int),
       some ((([Article.mk (some "1") (some "A tool")
           (some "see https://github.com/acme/tool for code")
           (some "https://github.com/acme/tool") true] : List Article).length : Int) -
             (([Article.mk (some "1") (some "A tool")
           (some "see https://github.com/acme/tool for code")
           (some "https://github.com/acme/tool") true] : List Article).countP
             (fun r => r.github_link.isSome) : Nat))) :=
  claim_C8_amended
    (mockEnv ["1"] (some "1")
      [stdArticle "1" "A tool" (some "see https://github.com/acme/tool for code")] 200)
    none 5
    ⟨.ok (1, some 1, some 0), ["1"],
     some [Article.mk (some "1") (some "A tool")
       (some "see https://github.com/acme/tool for code")
       (some "https://github.com/acme/tool") true]⟩
    (1, some 1, some 0)
    [Article.mk (some "1") (some "A tool")
      (some "see https://github.com/acme/tool for code")
      (some "https://github.com/acme/tool") true]
    rfl rfl rfl (by simp)

/-- C9, counterexample to the claim as stated: `find_github_link` scans each
element's leading text (`.text`) only — text in tail position (after an
inline child element) is part of the sub-document's text but is never
scanned, so a sub-document whose only occurrence of the pattern lies in a
tail yields no extracted link. -/
theorem claim_C9_counterexample :
    find_github_link artTailLink = none ∧
    "see https://github.com/a/b done" ∈ docTexts artTailLink ∧
    searchGithub "see https://github.com/a/b done" = some "https://github.com/a/b" := by
  refine ⟨rfl, ?_, rfl⟩
  decide

/-- C9, amended: the extractor scans the leading text of every element of the
sub-document in depth-first (document) order and takes the first match among
those texts; if no element's leading text matches, the link is absent
(tail text is never scanned); first match wins across elements; and scenario
C holds: a record with no matching text field gets an absent link and
`hasExtractedLink = false`. -/
theorem claim_C9_amended (article : XElem) :
    ((∀ e ∈ XElem.iter article, scanText e = none) → find_github_link article = none) ∧
    (∀ m, find_github_link article = some m →
      ∃ e ∈ XElem.iter article, scanText e = some m) ∧
    find_github_link artTwoLinks = some "http://github.com/first/one" ∧
    parseArticleA (stdArticle "9" "plain title" (some "no links here")) =
      .ok ⟨some "9", some "plain title", some "no links here", none, false⟩ := by
  refine ⟨fun h => findLoop_none _ h, fun m hm => findLoop_some _ m hm, rfl, rfl⟩

/-- Witness for `claim_C9_amended` at a concrete pattern-free record. -/
theorem claim_C9_witness :
    find_github_link (stdArticle "9" "plain title" (some "no links here")) = none :=
  (claim_C9_amended (stdArticle "9" "plain title" (some "no links here"))).1 (by decide)

theorem parseArticleA_abstract (article : XElem) (r : Article)
    (h : parseArticleA article = .ok r) :
    r.abstract = (findAbstractTextElem article).bind XElem.text := by
  unfold parseArticleA at h
  cases hp : findDesc article "PMID" with
  | none => rw [hp] at h; exact absurd h (by simp)
  | some pe =>
    rw [hp] at h
    cases ht : findDesc article "ArticleTitle" with
    | none => rw [ht] at h; exact absurd h (by simp)
    | some te =>
      rw [ht] at h
      simp only [Except.ok.injEq] at h
      subst h
      rfl

/-- C10, confirmed: the stored abstract is exactly the leading text of the
first `Abstract/AbstractText` element — with multiple sections only the first
section's leading text is kept (the second section is dropped although its
text is in the sub-document), and with inline child markup at the start of
the element the abstract is recorded as absent although abstract text exists
in the child and tail nodes. -/
theorem claim_C10 (article : XElem) (r : Article) (h : parseArticleA article = .ok r) :
    r.abstract = (findAbstractTextElem article).bind XElem.text ∧
    (∃ r2, parseArticleA artTwoSections = .ok r2 ∧ r2.abstract = some "First section.") ∧
    "Second section." ∈ docTexts artTwoSections ∧
    (∃ r3, parseArticleA artMarkup = .ok r3 ∧ r3.abstract = none) ∧
    "Background" ∈ docTexts artMarkup ∧ " rest of the abstract." ∈ docTexts artMarkup := by
  refine ⟨parseArticleA_abstract article r h, ⟨_, rfl, rfl⟩, by decide, ⟨_, rfl, rfl⟩,
    by decide, by decide⟩

/-- Witness for `claim_C10` at the two-section abstract. -/
theorem claim_C10_witness :
    (Article.mk (some "2") (some "T2") (some "First section.") none false).abstract =
      (findAbstractTextElem artTwoSections).bind XElem.text :=
  (claim_C10 artTwoSections
    (Article.mk (some "2") (some "T2") (some "First section.") none false) rfl).1
